import Mathlib

/-!
# CityForge raster-processing pipeline: a shallow embedding

This file embeds the numeric core of the CityForge urban-resilience
pipeline in Lean and proves the specified properties about it.

Python floats are modelled as exact rationals (`ℚ`), Python integers as
`ℤ`/`ℕ`, NaN-able measurements as `Option ℚ`, and numpy arrays as lists.
Every definition is translated directly from the corresponding Python
function; the source file and function are named in each doc comment.
-/

namespace CityForge

/-- `np.clip(x, lo, hi)` for scalars (as used throughout
`src/preprocessing/data_processor.py`). -/
def clip (x lo hi : ℚ) : ℚ := max lo (min x hi)

/-- Python `int(q)`: truncation of a rational toward zero.  A rational's
numerator and denominator are coprime with positive denominator, so
truncating division of `num` by `den` is exactly `int()`. -/
def pyInt (q : ℚ) : ℤ := q.num.tdiv q.den

/-- `pandas`/`numpy` mean of a list of values (callers below only apply
it to nonempty lists, mirroring the `.empty` guards in the source). -/
def mean (l : List ℚ) : ℚ := l.sum / l.length

/-! ## `DataNormalizer.normalize_temperature`
(`src/preprocessing/data_processor.py`, lines 136-165) -/

/-- `classify_heat_stress` from `normalize_temperature`. -/
def classify_heat_stress (temp : ℚ) : String :=
  if temp < 30 then "Low"
  else if temp < 35 then "Moderate"
  else if temp < 40 then "High"
  else "Extreme"

/-- The per-pixel normalized temperature score
`np.clip((temp - 20) / 25 * 100, 0, 100)`. -/
def temperature_normalized (temp : ℚ) : ℚ := clip ((temp - 20) / 25 * 100) 0 100

/-- `normalize_temperature` applied to a raster (list) of Celsius values:
returns the heat-stress category raster and the normalized-score raster. -/
def normalize_temperature (temps : List ℚ) : List String × List ℚ :=
  (temps.map classify_heat_stress, temps.map temperature_normalized)

/-! ## `DataNormalizer.normalize_air_quality`
(`src/preprocessing/data_processor.py`, lines 167-227) -/

/-- One `(c_low, c_high, aqi_low, aqi_high)` entry of the AQI breakpoint
tables. -/
structure Breakpoint where
  c_low : ℚ
  c_high : ℚ
  aqi_low : ℚ
  aqi_high : ℚ
deriving DecidableEq, Repr

def pm25_breakpoints : List Breakpoint :=
  [⟨0, 30, 0, 50⟩, ⟨30, 60, 51, 100⟩, ⟨60, 90, 101, 200⟩,
   ⟨90, 120, 201, 300⟩, ⟨120, 250, 301, 400⟩]

def pm10_breakpoints : List Breakpoint :=
  [⟨0, 50, 0, 50⟩, ⟨50, 100, 51, 100⟩, ⟨100, 250, 101, 200⟩,
   ⟨250, 350, 201, 300⟩, ⟨350, 430, 301, 400⟩]

def no2_breakpoints : List Breakpoint :=
  [⟨0, 40, 0, 50⟩, ⟨40, 80, 51, 100⟩, ⟨80, 180, 101, 200⟩,
   ⟨180, 280, 201, 300⟩, ⟨280, 400, 301, 400⟩]

def so2_breakpoints : List Breakpoint :=
  [⟨0, 40, 0, 50⟩, ⟨40, 80, 51, 100⟩, ⟨80, 380, 101, 200⟩,
   ⟨380, 800, 201, 300⟩, ⟨800, 1600, 301, 400⟩]

/-- The `aqi_breakpoints` dict: `none` models a pollutant key that is
absent from the dict. -/
def aqi_breakpoints (pollutant : String) : Option (List Breakpoint) :=
  if pollutant = "pm25" then some pm25_breakpoints
  else if pollutant = "pm10" then some pm10_breakpoints
  else if pollutant = "no2" then some no2_breakpoints
  else if pollutant = "so2" then some so2_breakpoints
  else none

/-- The exact (real-valued) piecewise-linear interpolant of one
breakpoint entry:
`((aqi_high - aqi_low) / (c_high - c_low)) * (concentration - c_low) + aqi_low`. -/
def piece_aqi_exact (b : Breakpoint) (c : ℚ) : ℚ :=
  (b.aqi_high - b.aqi_low) / (b.c_high - b.c_low) * (c - b.c_low) + b.aqi_low

/-- `int(aqi)` of one breakpoint entry, as the source returns it. -/
def piece_aqi (b : Breakpoint) (c : ℚ) : ℤ := pyInt (piece_aqi_exact b c)

/-- The `for c_low, c_high, aqi_low, aqi_high in breakpoints:` loop of
`calculate_aqi`: first entry whose closed interval contains the
concentration wins; if none matches, return the maximum AQI 400. -/
def calculate_aqi_loop : List Breakpoint → ℚ → ℤ
  | [], _ => 400
  | b :: rest, c =>
    if b.c_low ≤ c ∧ c ≤ b.c_high then piece_aqi b c else calculate_aqi_loop rest c

/-- `calculate_aqi(concentration, pollutant)`
(`src/preprocessing/data_processor.py`, lines 178-187).  A pollutant
absent from the breakpoint dict yields the default 50. -/
def calculate_aqi (concentration : ℚ) (pollutant : String) : ℤ :=
  match aqi_breakpoints pollutant with
  | none => 50
  | some bps => calculate_aqi_loop bps concentration

/-! ## `DataNormalizer.normalize_precipitation`
(`src/preprocessing/data_processor.py`, lines 229-271) -/

/-- `classify_precip` from `normalize_precipitation`. -/
def classify_precip (precip : ℚ) : String :=
  if precip < 5 / 2 then "Light"
  else if precip < 10 then "Moderate"
  else if precip < 35 then "Heavy"
  else "Very Heavy"

/-- The flood-risk score of `normalize_precipitation`:
`np.clip(precip / 50, 0, 1)`, then, when soil moisture is supplied,
`np.minimum(flood_risk + np.clip(soil / 0.5, 0, 1) * 0.3, 1.0)`. -/
def flood_risk_score (precip : ℚ) (soil_moisture : Option ℚ) : ℚ :=
  let flood_risk := clip (precip / 50) 0 1
  match soil_moisture with
  | none => flood_risk
  | some soil => min (flood_risk + clip (soil / (1 / 2)) 0 1 * (3 / 10)) 1

/-- `classify_flood_risk` from `normalize_precipitation`. -/
def classify_flood_risk (risk : ℚ) : String :=
  if risk < 1 / 4 then "Low"
  else if risk < 1 / 2 then "Medium"
  else if risk < 3 / 4 then "High"
  else "Critical"

/-- The score/category pair `normalize_precipitation` produces per pixel. -/
def normalize_precipitation (precip : ℚ) (soil_moisture : Option ℚ) : ℚ × String :=
  (flood_risk_score precip soil_moisture,
   classify_flood_risk (flood_risk_score precip soil_moisture))

/-! ## `MODISProcessor._qc_decode`
(`src/preprocessing/modis_processor.py`, lines 127-157).

The QC raster is cast with `astype('int64')` before decoding, so a pixel
code is a Python integer.  Python `n >> k` on integers is floor division
by `2^k` and `n & (2^k - 1)` is `n mod 2^k` (also for negatives), which
is `Int.ediv`/`Int.emod`. -/

/-- Python `n >> k`. -/
def py_shr (n : ℤ) (k : ℕ) : ℤ := Int.ediv n (2 ^ k)

/-- Python `n & (2^k - 1)`. -/
def py_and_mask (n : ℤ) (k : ℕ) : ℤ := Int.emod n (2 ^ k)

/-- `_qc_decode(ok_qc, qc_tol)` applied to one pixel code.
Bits 0-1: mandatory QA, bits 2-3: data quality, bit 5: LST error. -/
def qc_decode (ok_qc : ℤ) (qc_tol : ℤ) : Bool :=
  let qa_mand := py_and_mask ok_qc 2
  let qa_data := py_and_mask (py_shr ok_qc 2) 2
  let lst_err := py_and_mask (py_shr ok_qc 5) 1
  let mand_ok : Bool := if qc_tol > 2 then decide (qa_mand ≤ 2) else decide (qa_mand ≤ 1)
  let data_ok : Bool := if qc_tol > 1 then decide (qa_data ≤ 2) else decide (qa_data ≤ 1)
  let err_ok : Bool := decide (lst_err = 0)
  mand_ok && data_ok && err_ok

/-! ## `MODISProcessor` tile bounds and coordinate construction
(`src/preprocessing/modis_processor.py`, lines 23-91) -/

/-- `self.tile_size = 1111950.5197665` metres. -/
def tile_size : ℚ := 11119505197665 / 10000000

/-- Sinusoidal-projection bounding box of one MODIS tile. -/
structure TileBounds where
  left : ℚ
  bottom : ℚ
  right : ℚ
  top : ℚ
deriving DecidableEq, Repr

/-- Python `f"{n:02d}"` for the tile indices used here. -/
def pad2 (n : ℕ) : String := if n < 10 then "0" ++ toString n else toString n

/-- The dict key `f"h{h:02d}v{v:02d}"`. -/
def tile_key (h v : ℕ) : String := "h" ++ pad2 h ++ "v" ++ pad2 v

/-- The bounds computed for tile `(h, v)` in `_calculate_tile_bounds`:
`left = (h - 18) * tile_size`, `top = (9 - v) * tile_size`. -/
def tile_bounds_for (h v : ℕ) : TileBounds :=
  let left := ((h : ℚ) - 18) * tile_size
  let top := ((9 : ℚ) - (v : ℚ)) * tile_size
  ⟨left, top - tile_size, left + tile_size, top⟩

/-- `self.tile_bounds`: the dict built by `_calculate_tile_bounds` over
`h in range(14, 28)`, `v in range(0, 12)`, as an association list. -/
def tile_bounds : List (String × TileBounds) :=
  (List.range' 14 14).flatMap fun h =>
    (List.range 12).map fun v => (tile_key h v, tile_bounds_for h v)

/-- `tile_id in self.tile_bounds` / `self.tile_bounds[tile_id]`. -/
def lookup_tile (tile_id : String) : Option TileBounds := tile_bounds.lookup tile_id

/-- The bounds `create_geographic_coordinates` selects: the tile's own
entry when the id is a key of the dict, otherwise the default Mumbai
tile `h25v06`. -/
def create_geographic_coordinates_bounds (tile_id : String) : TileBounds :=
  match lookup_tile tile_id with
  | some b => b
  | none => (lookup_tile "h25v06").getD ⟨0, 0, 0, 0⟩

/-- `np.linspace(a, b, n)` (endpoint included). -/
def linspace (a b : ℚ) (n : ℕ) : List ℚ :=
  if n = 0 then []
  else if n = 1 then [a]
  else (List.range n).map fun i => a + (b - a) * i / ((n : ℚ) - 1)

/-- `create_geographic_coordinates(shape, tile_id)`
(`src/preprocessing/modis_processor.py`, lines 65-91), with the pyproj
sinusoidal-to-geographic transformer abstracted as a deterministic
function `T : (x, y) ↦ (lon, lat)`.  Returns the `(lat_grid, lon_grid)`
row lists; `x` spans left→right over the columns and `y` top→bottom over
the rows, exactly as in the source. -/
def create_geographic_coordinates (T : ℚ × ℚ → ℚ × ℚ) (rows cols : ℕ)
    (tile_id : String) : List (List ℚ) × List (List ℚ) :=
  let bounds := create_geographic_coordinates_bounds tile_id
  let x := linspace bounds.left bounds.right cols
  let y := linspace bounds.top bounds.bottom rows
  (y.map fun yy => x.map fun xx => (T (xx, yy)).2,
   y.map fun yy => x.map fun xx => (T (xx, yy)).1)

/-- The log records emitted by `create_geographic_coordinates` itself:
the source function body contains no logger call at all (in particular
none on its unknown-tile fallback branch), so the list is empty for
every input. -/
def create_geographic_coordinates_logs (_rows _cols : ℕ) (_tile_id : String) :
    List String := []

/-! ## Recommendation ranking
(`src/recommendations/recommendation_engine.py`, lines 419-421) -/

/-- The `Priority` enum. -/
inductive Priority
  | critical
  | high
  | medium
  | low
deriving DecidableEq, Repr

/-- `priority_order = {Priority.CRITICAL: 0, Priority.HIGH: 1,
Priority.MEDIUM: 2, Priority.LOW: 3}`. -/
def priority_order : Priority → ℕ
  | .critical => 0
  | .high => 1
  | .medium => 2
  | .low => 3

/-- The fields of the `Recommendation` dataclass that the ranking key
`(priority_order[x.priority], -x.affected_population)` reads, plus a
title to tell records apart. -/
structure Recommendation where
  priority : Priority
  affected_population : ℤ
  title : String
deriving DecidableEq, Repr

/-- The total preorder induced by the Python sort key
`(priority_order[x.priority], -x.affected_population)` compared
lexicographically. -/
def rec_le (a b : Recommendation) : Bool :=
  decide (priority_order a.priority < priority_order b.priority) ||
    (decide (priority_order a.priority = priority_order b.priority) &&
      decide (-a.affected_population ≤ -b.affected_population))

/-- Stable insertion of one record into an already sorted list: a record
is placed before the first strictly greater record and after records
that compare less-or-equal, which is exactly how Python's stable
`list.sort` orders ties. -/
def rec_insert (a : Recommendation) : List Recommendation → List Recommendation
  | [] => [a]
  | b :: rest => if rec_le a b then a :: b :: rest else b :: rec_insert a rest

/-- `all_recommendations.sort(key=lambda x: (priority_order[x.priority],
-x.affected_population))`: Python's stable sort, modelled as stable
insertion sort over the same key order. -/
def sort_recommendations : List Recommendation → List Recommendation
  | [] => []
  | a :: rest => rec_insert a (sort_recommendations rest)

/-! ## `RecommendationEngine.calculate_city_resilience_score`
(`src/recommendations/recommendation_engine.py`, lines 487-608).

The pandas frames are abstracted to the columns the function reads:
`none` models a key absent from `analysis_results`, `some []` an empty
frame under a present key. -/

/-- The inputs `calculate_city_resilience_score` reads. -/
structure AnalysisResults where
  /-- `mean_aqi` column of `ward_air_quality`. -/
  ward_air_quality : Option (List ℚ)
  /-- row count of `heat_islands` (`some 0` = present but empty frame). -/
  heat_islands : Option ℕ
  /-- per-row `priority == 'Critical'` flags of `healthcare_gaps`. -/
  healthcare_gaps : Option (List Bool)
  /-- `facilities_per_1000` column of `healthcare_capacity`. -/
  healthcare_capacity : Option (List ℚ)
  /-- `combined_green_score` column of `green_space_deficits`. -/
  green_space_deficits : Option (List ℚ)
  /-- `flood_risk_score` column of `flood_zones`. -/
  flood_zones : Option (List ℚ)
  /-- `avg_flood_risk` column of `drainage_analysis`. -/
  drainage_analysis : Option (List ℚ)
deriving DecidableEq, Repr

/-- The air-quality domain score: piecewise in the mean ward AQI, then
`max(0, ·)`; default 50 when the key is absent or the frame empty. -/
def air_quality_score (r : AnalysisResults) : ℚ :=
  match r.ward_air_quality with
  | none => 50
  | some l =>
    if l = [] then 50
    else
      let avg_aqi := mean l
      let s :=
        if avg_aqi ≤ 50 then 100
        else if avg_aqi ≤ 100 then 100 - (avg_aqi - 50)
        else if avg_aqi ≤ 200 then 50 - (avg_aqi - 100) * (3 / 10)
        else if avg_aqi ≤ 300 then 20 - (avg_aqi - 200) * (2 / 10)
        else 0
      max 0 s

/-- The heat domain score:
`max(0, 100 - min(total_area / 1000, 1.0) * 80)` over the heat-island
count; default 50 when absent/empty. -/
def heat_resilience_score (r : AnalysisResults) : ℚ :=
  match r.heat_islands with
  | none => 50
  | some n =>
    if 0 < n then
      let heat_coverage := min ((n : ℚ) / 1000) 1
      max 0 (100 - heat_coverage * 80)
    else 50

/-- The healthcare domain score: from the critical-gap ratio when the
`healthcare_gaps` key is present, else (elif) from mean facilities per
1000 when `healthcare_capacity` is present; default 50. -/
def healthcare_access_score (r : AnalysisResults) : ℚ :=
  match r.healthcare_gaps with
  | some gaps =>
    if gaps = [] then 50
    else
      let gap_ratio := (gaps.countP id : ℚ) / (gaps.length : ℚ)
      max 0 (100 - gap_ratio * 100)
  | none =>
    match r.healthcare_capacity with
    | some caps => if caps = [] then 50 else min 100 (mean caps * 100)
    | none => 50

/-- The green-space domain score: the mean `combined_green_score`,
assigned directly with no clamping; default 50 when absent/empty. -/
def green_space_score (r : AnalysisResults) : ℚ :=
  match r.green_space_deficits with
  | none => 50
  | some l => if l = [] then 50 else mean l

/-- The flood domain score: from the fraction of zones with
`flood_risk_score >= 0.5` when `flood_zones` is present, else (elif)
from the mean `avg_flood_risk`; default 50. -/
def flood_resilience_score (r : AnalysisResults) : ℚ :=
  match r.flood_zones with
  | some zones =>
    if zones = [] then 50
    else
      let risk_ratio := (zones.countP (fun z => decide (1 / 2 ≤ z)) : ℚ) / (zones.length : ℚ)
      max 0 (100 - risk_ratio * 80)
  | none =>
    match r.drainage_analysis with
    | some d => if d = [] then 50 else max 0 (100 - mean d * 100)
    | none => 50

/-- `scores['overall_resilience_score'] = np.mean(list(scores.values())[:-1])`:
the insertion order of the `scores` dict is air, heat, flood,
healthcare, green, overall, so `[:-1]` is exactly the five domain
scores. -/
def overall_resilience_score (r : AnalysisResults) : ℚ :=
  (air_quality_score r + heat_resilience_score r + flood_resilience_score r +
    healthcare_access_score r + green_space_score r) / 5

/-! ## `RealNASADataIngestion._process_omi_hdf_file`: region handling
(`src/data_ingestion/real_nasa_apis.py`, lines 409-542) -/

/-- A region bounding box (`settings.mumbai_bounds` in `src/config.py`). -/
structure RegionBounds where
  north : ℚ
  south : ℚ
  east : ℚ
  west : ℚ
deriving DecidableEq, Repr

/-- `settings.mumbai_bounds`. -/
def mumbai_bounds : RegionBounds := ⟨193 / 10, 188 / 10, 729 / 10, 727 / 10⟩

/-- One swath pixel: geolocation plus measured value (`none` = NaN). -/
structure SwathPixel where
  lat : ℚ
  lon : ℚ
  value : Option ℚ
deriving DecidableEq, Repr

/-- The `mumbai_mask` test of `_process_omi_hdf_file` (buffer 0.1°):
`lat >= south - buffer and lat <= north + buffer and
lon >= west - buffer and lon <= east + buffer`. -/
def in_buffered_bounds (b : RegionBounds) (buffer : ℚ) (p : SwathPixel) : Bool :=
  decide (b.south - buffer ≤ p.lat) && decide (p.lat ≤ b.north + buffer) &&
    decide (b.west - buffer ≤ p.lon) && decide (p.lon ≤ b.east + buffer)

/-- `valid_mask = (~np.isnan(values)) & (values > 0)` for one pixel. -/
def pixel_value_valid (p : SwathPixel) : Bool :=
  match p.value with
  | none => false
  | some v => decide (0 < v)

/-- How `_process_omi_hdf_file` fills the returned 25×25 Mumbai grid.
Every constructor except `real_idw` draws the grid from
`np.random.lognormal` seeded by swath statistics. -/
inductive OmiGridData
  /-- inverse-distance-weighted interpolation of the valid in-region pixels. -/
  | real_idw
  /-- `mumbai_mask` nonzero, more than 5 pixels, but no valid values:
  lognormal grid from in-swath global statistics. -/
  | synthetic_region_stats
  /-- 5 or fewer pixels inside the buffered region: lognormal grid. -/
  | synthetic_few_pixels
  /-- `mumbai_mask` has zero true entries: lognormal grid. -/
  | synthetic_no_coverage
deriving DecidableEq, Repr

/-- The branch `_process_omi_hdf_file` takes on a swath with coordinate
data present, deciding which grid it builds for the target region. -/
def omi_mumbai_grid_source (b : RegionBounds) (pixels : List SwathPixel) : OmiGridData :=
  let mumbai_pixels := pixels.filter (in_buffered_bounds b (1 / 10))
  if mumbai_pixels.isEmpty then .synthetic_no_coverage
  else if mumbai_pixels.length ≤ 5 then .synthetic_few_pixels
  else if (mumbai_pixels.filter pixel_value_valid).isEmpty then .synthetic_region_stats
  else .real_idw

/-- Whether a grid source is fabricated rather than measured. -/
def omi_grid_is_synthetic : OmiGridData → Bool
  | .real_idw => false
  | _ => true

/-- The value `_process_omi_hdf_file` returns once a data variable with
`size > 0` was found and coordinates are present: it returns `some`
populated dataset on **every** region-handling branch (`none`, the
data-unavailable signal, is only returned for missing data fields or a
malformed HDF structure, never for zero regional coverage). -/
def process_omi_region (b : RegionBounds) (pixels : List SwathPixel) :
    Option OmiGridData :=
  some (omi_mumbai_grid_source b pixels)

/-! ## Spec-side definitions (for refinement claims) -/

/-- The flood-risk formula exactly as the specification words it:
`min(clip(precip/50, 0, 1) + clip(soil_moisture/0.5, 0, 1)*0.3, 1.0)`. -/
def spec_flood_risk_score (precip soil : ℚ) : ℚ :=
  min (clip (precip / 50) 0 1 + clip (soil / (1 / 2)) 0 1 * (3 / 10)) 1

/-- The flood-risk category thresholds exactly as the specification
words them: `<0.25 Low, <0.5 Medium, <0.75 High, else Critical`. -/
def spec_flood_risk_category (risk : ℚ) : String :=
  if risk < 1 / 4 then "Low"
  else if risk < 1 / 2 then "Medium"
  else if risk < 3 / 4 then "High"
  else "Critical"

/-! ## Helper lemmas -/

/-- Relaxing the QC tolerance only widens each sub-check, so acceptance
is monotone in the tolerance. -/
lemma qc_decode_mono {t1 t2 : ℤ} (hle : t1 ≤ t2) (c : ℤ)
    (h : qc_decode c t1 = true) : qc_decode c t2 = true := by
  simp only [qc_decode, Bool.and_eq_true] at h ⊢
  obtain ⟨⟨hm, hd⟩, he⟩ := h
  refine ⟨⟨?_, ?_⟩, he⟩
  · split at hm <;> split <;> simp only [decide_eq_true_eq] at * <;> omega
  · split at hd <;> split <;> simp only [decide_eq_true_eq] at * <;> omega

/-- If no breakpoint interval contains the concentration, the lookup
loop falls through to the maximum AQI 400. -/
lemma calculate_aqi_loop_eq_400 (bps : List Breakpoint) (c : ℚ)
    (h : ∀ b ∈ bps, ¬(b.c_low ≤ c ∧ c ≤ b.c_high)) : calculate_aqi_loop bps c = 400 := by
  induction bps with
  | nil => rfl
  | cons b rest ih =>
    simp only [calculate_aqi_loop]
    rw [if_neg (h b (List.mem_cons_self b rest))]
    exact ih fun x hx => h x (List.mem_cons_of_mem _ hx)

/-- The lookup loop returns the truncated linear interpolant of the
*first* breakpoint entry whose interval contains the concentration. -/
lemma calculate_aqi_loop_first_match (bps : List Breakpoint) (c : ℚ) (b : Breakpoint)
    (h : bps.find? (fun q => decide (q.c_low ≤ c) && decide (c ≤ q.c_high)) = some b) :
    calculate_aqi_loop bps c = pyInt (piece_aqi_exact b c) := by
  induction bps with
  | nil => simp at h
  | cons q rest ih =>
    by_cases hq : q.c_low ≤ c ∧ c ≤ q.c_high
    · rw [List.find?_cons_of_pos _ (by simp [hq.1, hq.2])] at h
      obtain rfl : q = b := by simpa using h
      simp only [calculate_aqi_loop]
      rw [if_pos hq]
      rfl
    · rw [List.find?_cons_of_neg _ (by simpa using hq)] at h
      simp only [calculate_aqi_loop]
      rw [if_neg hq]
      exact ih h

/-! ## Claim theorems -/

/-- **C2.** For every integer QC code and every tolerance, `_qc_decode`
accepts a pixel only if bit 5 (the LST error bit) of the code is 0; no
tolerance level bypasses the error-bit conjunct. -/
theorem qc_decode_requires_error_bit_zero (c t : ℤ) (h : qc_decode c t = true) :
    py_and_mask (py_shr c 5) 1 = 0 := by
  simp only [qc_decode, Bool.and_eq_true, decide_eq_true_eq] at h
  exact h.2

theorem qc_decode_requires_error_bit_zero_witness :
    qc_decode 0 1 = true ∧ py_and_mask (py_shr 0 5) 1 = 0 :=
  ⟨by decide, qc_decode_requires_error_bit_zero 0 1 (by decide)⟩

/-- **C3.** For tolerances `t1 < t2` in `{1,2,3}`, every pixel accepted
by `_qc_decode` at `t1` is accepted at `t2`, so the accepted-pixel count
of any QC raster is monotone in the tolerance. -/
theorem qc_accept_monotone (codes : List ℤ) (t1 t2 : ℤ)
    (_h1 : t1 ∈ ([1, 2, 3] : List ℤ)) (_h2 : t2 ∈ ([1, 2, 3] : List ℤ)) (hlt : t1 < t2) :
    (∀ c : ℤ, qc_decode c t1 = true → qc_decode c t2 = true) ∧
      codes.countP (fun c => qc_decode c t1) ≤ codes.countP (fun c => qc_decode c t2) :=
  ⟨fun c => qc_decode_mono (le_of_lt hlt) c,
    List.countP_mono_left fun c _ hc => qc_decode_mono (le_of_lt hlt) c hc⟩

theorem qc_accept_monotone_witness :
    (∀ c : ℤ, qc_decode c 1 = true → qc_decode c 2 = true) ∧
      ([0, 32] : List ℤ).countP (fun c => qc_decode c 1) ≤
        ([0, 32] : List ℤ).countP (fun c => qc_decode c 2) :=
  qc_accept_monotone [0, 32] 1 2 (by decide) (by decide) (by decide)

/-- **C4 (counterexample).** On the raster `{28,30,32,34,36,38}` the
claimed category list is wrong: the code classifies 34 °C as
`Moderate` (34 < 35) and 38 °C as `High` (38 < 40), so the claimed
`{Low,Moderate,Moderate,High,High,Extreme}` does not match. -/
theorem heat_scenario_counterexample :
    classify_heat_stress 34 = "Moderate" ∧ classify_heat_stress 38 = "High" ∧
      ([28, 30, 32, 34, 36, 38] : List ℚ).map classify_heat_stress ≠
        ["Low", "Moderate", "Moderate", "High", "High", "Extreme"] := by
  refine ⟨by decide, by decide, by decide⟩

/-- **C4 (amended).** `normalize_temperature` on `{28,30,32,34,36,38}` °C
yields categories `{Low,Moderate,Moderate,Moderate,High,High}` and
normalized scores `{32,40,48,56,64,72}`; the thresholds behave as
`<30 Low, <35 Moderate, <40 High, ≥40 Extreme` at the boundaries. -/
theorem heat_scenario_amended :
    normalize_temperature [28, 30, 32, 34, 36, 38] =
        (["Low", "Moderate", "Moderate", "Moderate", "High", "High"],
          [32, 40, 48, 56, 64, 72]) ∧
      classify_heat_stress 30 = "Moderate" ∧ classify_heat_stress 35 = "High" ∧
      classify_heat_stress 40 = "Extreme" := by
  refine ⟨?_, by decide, by decide, by decide⟩
  simp only [normalize_temperature, List.map, Prod.mk.injEq]
  constructor
  · decide
  · norm_num [temperature_normalized, clip]

/-- **C5 (counterexample).** At the shared NO2 breakpoint boundary 40,
the upper piece `(40,80,51,100)` does not yield 50: its interpolant at
40 is its own `aqi_low = 51`. -/
theorem aqi_boundary_counterexample :
    piece_aqi ⟨40, 80, 51, 100⟩ 40 ≠ 50 := by
  norm_num [piece_aqi, piece_aqi_exact, pyInt]

/-- **C5 (amended).** NO2 concentration exactly 40 µg/m³ yields AQI 50,
taken from the lower piece `(0,40,0,50)`, which the breakpoint loop
matches first; the upper piece `(40,80,51,100)` evaluated at 40 gives
51, so the table interpolation is *not* continuous at this boundary —
the function is single-valued there only because the loop always
resolves a shared boundary to the earlier piece. -/
theorem aqi_boundary_first_piece :
    calculate_aqi 40 "no2" = 50 ∧ piece_aqi ⟨0, 40, 0, 50⟩ 40 = 50 ∧
      piece_aqi ⟨40, 80, 51, 100⟩ 40 = 51 := by
  refine ⟨?_, ?_, ?_⟩
  · simp only [calculate_aqi, aqi_breakpoints, String.reduceEq, reduceIte, no2_breakpoints]
    norm_num [calculate_aqi_loop, piece_aqi, piece_aqi_exact, pyInt]
  · norm_num [piece_aqi, piece_aqi_exact, pyInt]
  · norm_num [piece_aqi, piece_aqi_exact, pyInt]

/-- **C8.** The flood-risk score with soil moisture equals the
specification's formula
`min(clip(p/50,0,1) + clip(m/0.5,0,1)*0.3, 1.0)`, the category
thresholds match the specification's, and precipitation 40 mm with soil
moisture 0.5 gives score 1.0 and category Critical. -/
theorem flood_risk_matches_spec :
    (∀ precip soil : ℚ,
        flood_risk_score precip (some soil) = spec_flood_risk_score precip soil) ∧
      (∀ risk : ℚ, classify_flood_risk risk = spec_flood_risk_category risk) ∧
      normalize_precipitation 40 (some (1 / 2)) = (1, "Critical") := by
  refine ⟨fun precip soil => rfl, fun risk => rfl, ?_⟩
  have h1 : flood_risk_score 40 (some (1 / 2)) = 1 := by
    norm_num [flood_risk_score, clip]
  simp only [normalize_precipitation, h1, Prod.mk.injEq]
  norm_num [classify_flood_risk]

/-- **C10.** For each pollutant with a breakpoint table, any
concentration contained in no table interval — in particular every
negative concentration and every concentration above the table's last
upper bound — gets the maximum sub-index 400; when an interval does
contain the concentration, the result is the linear interpolant of the
first matching entry truncated toward zero (`int()`), e.g. PM2.5 at 31
has exact interpolant 1579/30 ≈ 52.63 but sub-index 52. -/
theorem aqi_unmatched_max_and_truncation :
    (∀ p ∈ (["pm25", "pm10", "no2", "so2"] : List String), ∀ c : ℚ, c < 0 →
        calculate_aqi c p = 400) ∧
      (∀ c : ℚ, (250 < c → calculate_aqi c "pm25" = 400) ∧
        (430 < c → calculate_aqi c "pm10" = 400) ∧
        (400 < c → calculate_aqi c "no2" = 400) ∧
        (1600 < c → calculate_aqi c "so2" = 400)) ∧
      (∀ (bps : List Breakpoint) (c : ℚ),
        (∀ b ∈ bps, ¬(b.c_low ≤ c ∧ c ≤ b.c_high)) → calculate_aqi_loop bps c = 400) ∧
      (∀ (bps : List Breakpoint) (c : ℚ) (b : Breakpoint),
        bps.find? (fun q => decide (q.c_low ≤ c) && decide (c ≤ q.c_high)) = some b →
        calculate_aqi_loop bps c = pyInt (piece_aqi_exact b c)) ∧
      calculate_aqi 31 "pm25" = 52 ∧ piece_aqi_exact ⟨30, 60, 51, 100⟩ 31 = 1579 / 30 ∧
      pyInt (1579 / 30) = 52 := by
  refine ⟨?_, ?_, calculate_aqi_loop_eq_400, calculate_aqi_loop_first_match, ?_, ?_, ?_⟩
  · intro p hp c hc
    fin_cases hp <;>
      · simp only [calculate_aqi, aqi_breakpoints, String.reduceEq, reduceIte]
        refine calculate_aqi_loop_eq_400 _ _ fun b hb => ?_
        fin_cases hb <;> exact fun h => by simp at h; linarith [h.1]
  · intro c
    refine ⟨fun hc => ?_, fun hc => ?_, fun hc => ?_, fun hc => ?_⟩ <;>
      · simp only [calculate_aqi, aqi_breakpoints, String.reduceEq, reduceIte]
        refine calculate_aqi_loop_eq_400 _ _ fun b hb => ?_
        fin_cases hb <;> exact fun h => by simp at h; linarith [h.2]
  · simp only [calculate_aqi, aqi_breakpoints, String.reduceEq, reduceIte, pm25_breakpoints]
    norm_num [calculate_aqi_loop, piece_aqi, piece_aqi_exact, pyInt]
    decide
  · norm_num [piece_aqi_exact]
  · norm_num [pyInt]
    decide

theorem aqi_unmatched_max_and_truncation_witness :
    calculate_aqi (-1) "no2" = 400 ∧ calculate_aqi 251 "pm25" = 400 :=
  ⟨aqi_unmatched_max_and_truncation.1 "no2" (by decide) (-1) (by norm_num),
    (aqi_unmatched_max_and_truncation.2.1 251).1 (by norm_num)⟩

/-! ## C6: resilience-score bounds -/

lemma air_quality_score_bounds (r : AnalysisResults) :
    0 ≤ air_quality_score r ∧ air_quality_score r ≤ 100 := by
  unfold air_quality_score
  cases r.ward_air_quality with
  | none => norm_num
  | some l =>
    dsimp only
    by_cases hl : l = []
    · rw [if_pos hl]; norm_num
    · rw [if_neg hl]
      refine ⟨le_max_left _ _, max_le (by norm_num) ?_⟩
      split_ifs <;> linarith

lemma heat_resilience_score_bounds (r : AnalysisResults) :
    0 ≤ heat_resilience_score r ∧ heat_resilience_score r ≤ 100 := by
  unfold heat_resilience_score
  cases r.heat_islands with
  | none => norm_num
  | some n =>
    dsimp only
    by_cases hn : 0 < n
    · rw [if_pos hn]
      have h0 : (0 : ℚ) ≤ min ((n : ℚ) / 1000) 1 := le_min (by positivity) (by norm_num)
      refine ⟨le_max_left _ _, max_le (by norm_num) ?_⟩
      nlinarith
    · rw [if_neg hn]; norm_num

lemma healthcare_access_score_bounds (r : AnalysisResults)
    (hc : ∀ l, r.healthcare_capacity = some l → l ≠ [] → 0 ≤ mean l) :
    0 ≤ healthcare_access_score r ∧ healthcare_access_score r ≤ 100 := by
  unfold healthcare_access_score
  cases r.healthcare_gaps with
  | some gaps =>
    dsimp only
    by_cases h : gaps = []
    · rw [if_pos h]; norm_num
    · rw [if_neg h]
      have hlen : 0 < ((gaps.length : ℚ)) := by
        have := List.length_pos.mpr h
        exact_mod_cast this
      have hr0 : 0 ≤ ((gaps.countP id : ℚ)) / ((gaps.length : ℚ)) := by positivity
      have hr1 : ((gaps.countP id : ℚ)) / ((gaps.length : ℚ)) ≤ 1 := by
        rw [div_le_one hlen]
        exact_mod_cast List.countP_le_length id
      refine ⟨le_max_left _ _, max_le (by norm_num) (by nlinarith)⟩
  | none =>
    dsimp only
    cases hcap : r.healthcare_capacity with
    | none => norm_num
    | some caps =>
      dsimp only
      by_cases h : caps = []
      · rw [if_pos h]; norm_num
      · rw [if_neg h]
        have hm := hc caps hcap h
        exact ⟨le_min (by norm_num) (by nlinarith), min_le_left _ _⟩

lemma green_space_score_bounds (r : AnalysisResults)
    (hg : ∀ l, r.green_space_deficits = some l → l ≠ [] → 0 ≤ mean l ∧ mean l ≤ 100) :
    0 ≤ green_space_score r ∧ green_space_score r ≤ 100 := by
  unfold green_space_score
  cases hgd : r.green_space_deficits with
  | none => norm_num
  | some l =>
    dsimp only
    by_cases h : l = []
    · rw [if_pos h]; norm_num
    · rw [if_neg h]; exact hg l hgd h

lemma flood_resilience_score_bounds (r : AnalysisResults)
    (hd : ∀ l, r.drainage_analysis = some l → l ≠ [] → 0 ≤ mean l) :
    0 ≤ flood_resilience_score r ∧ flood_resilience_score r ≤ 100 := by
  unfold flood_resilience_score
  cases r.flood_zones with
  | some zones =>
    dsimp only
    by_cases h : zones = []
    · rw [if_pos h]; norm_num
    · rw [if_neg h]
      have hlen : 0 < ((zones.length : ℚ)) := by
        have := List.length_pos.mpr h
        exact_mod_cast this
      have hr0 : 0 ≤ ((zones.countP (fun z => decide (1 / 2 ≤ z)) : ℚ)) / ((zones.length : ℚ)) := by
        positivity
      refine ⟨le_max_left _ _, max_le (by norm_num) (by nlinarith)⟩
  | none =>
    dsimp only
    cases hdr : r.drainage_analysis with
    | none => norm_num
    | some d =>
      dsimp only
      by_cases h : d = []
      · rw [if_pos h]; norm_num
      · rw [if_neg h]
        have hm := hd d hdr h
        refine ⟨le_max_left _ _, max_le (by norm_num) (by nlinarith)⟩

/-- The input exhibiting the missing clamp on the green-space score: a
`green_space_deficits` frame whose mean `combined_green_score` is 150. -/
def overclaimed_green_results : AnalysisResults :=
  ⟨none, none, none, none, some [150], none, none⟩

/-- **C6 (counterexample).** `calculate_city_resilience_score` assigns
the mean `combined_green_score` to the green-space domain score with no
clamping, so a mean of 150 yields a domain score of 150 ∉ [0,100]. -/
theorem green_space_score_unclamped :
    green_space_score overclaimed_green_results = 150 ∧
      ¬ green_space_score overclaimed_green_results ≤ 100 := by
  norm_num [green_space_score, overclaimed_green_results, mean]

/-- **C6 (amended).** When the inputs the score formulas read are in
their nominal ranges — the mean `combined_green_score` in [0,100], mean
`facilities_per_1000` ≥ 0 and mean `avg_flood_risk` ≥ 0 — every one of
the five domain scores lies in [0,100]; the overall resilience score
always equals the unweighted arithmetic mean of exactly those five
domain scores, hence then also lies in [0,100].  (Air-quality, heat and
gap/zone-ratio scores are clamped unconditionally; the green-space
score and the two `elif` fallback scores are not clamped on one side.) -/
theorem resilience_scores_bounded (r : AnalysisResults)
    (hg : ∀ l, r.green_space_deficits = some l → l ≠ [] → 0 ≤ mean l ∧ mean l ≤ 100)
    (hc : ∀ l, r.healthcare_capacity = some l → l ≠ [] → 0 ≤ mean l)
    (hd : ∀ l, r.drainage_analysis = some l → l ≠ [] → 0 ≤ mean l) :
    (0 ≤ air_quality_score r ∧ air_quality_score r ≤ 100) ∧
      (0 ≤ heat_resilience_score r ∧ heat_resilience_score r ≤ 100) ∧
      (0 ≤ flood_resilience_score r ∧ flood_resilience_score r ≤ 100) ∧
      (0 ≤ healthcare_access_score r ∧ healthcare_access_score r ≤ 100) ∧
      (0 ≤ green_space_score r ∧ green_space_score r ≤ 100) ∧
      overall_resilience_score r =
        (air_quality_score r + heat_resilience_score r + flood_resilience_score r +
          healthcare_access_score r + green_space_score r) / 5 ∧
      0 ≤ overall_resilience_score r ∧ overall_resilience_score r ≤ 100 := by
  obtain ⟨a1, a2⟩ := air_quality_score_bounds r
  obtain ⟨b1, b2⟩ := heat_resilience_score_bounds r
  obtain ⟨c1, c2⟩ := flood_resilience_score_bounds r hd
  obtain ⟨d1, d2⟩ := healthcare_access_score_bounds r hc
  obtain ⟨e1, e2⟩ := green_space_score_bounds r hg
  refine ⟨⟨a1, a2⟩, ⟨b1, b2⟩, ⟨c1, c2⟩, ⟨d1, d2⟩, ⟨e1, e2⟩, rfl, ?_, ?_⟩ <;>
    · unfold overall_resilience_score
      linarith

theorem resilience_scores_bounded_witness :
    (0 ≤ air_quality_score ⟨none, none, none, none, none, none, none⟩ ∧
        air_quality_score ⟨none, none, none, none, none, none, none⟩ ≤ 100) ∧
      (0 ≤ heat_resilience_score ⟨none, none, none, none, none, none, none⟩ ∧
        heat_resilience_score ⟨none, none, none, none, none, none, none⟩ ≤ 100) ∧
      (0 ≤ flood_resilience_score ⟨none, none, none, none, none, none, none⟩ ∧
        flood_resilience_score ⟨none, none, none, none, none, none, none⟩ ≤ 100) ∧
      (0 ≤ healthcare_access_score ⟨none, none, none, none, none, none, none⟩ ∧
        healthcare_access_score ⟨none, none, none, none, none, none, none⟩ ≤ 100) ∧
      (0 ≤ green_space_score ⟨none, none, none, none, none, none, none⟩ ∧
        green_space_score ⟨none, none, none, none, none, none, none⟩ ≤ 100) ∧
      overall_resilience_score ⟨none, none, none, none, none, none, none⟩ =
        (air_quality_score ⟨none, none, none, none, none, none, none⟩ +
          heat_resilience_score ⟨none, none, none, none, none, none, none⟩ +
          flood_resilience_score ⟨none, none, none, none, none, none, none⟩ +
          healthcare_access_score ⟨none, none, none, none, none, none, none⟩ +
          green_space_score ⟨none, none, none, none, none, none, none⟩) / 5 ∧
      0 ≤ overall_resilience_score ⟨none, none, none, none, none, none, none⟩ ∧
        overall_resilience_score ⟨none, none, none, none, none, none, none⟩ ≤ 100 :=
  resilience_scores_bounded ⟨none, none, none, none, none, none, none⟩
    (fun _ h => nomatch h) (fun _ h => nomatch h) (fun _ h => nomatch h)

/-! ## C7: recommendation ranking -/

/-- The order the specification describes: priority tier first
(Critical before High before Medium before Low), then descending
affected population within equal priority. -/
def rec_spec_order (a b : Recommendation) : Prop :=
  priority_order a.priority < priority_order b.priority ∨
    (a.priority = b.priority ∧ b.affected_population ≤ a.affected_population)

lemma priority_order_inj {p q : Priority} (h : priority_order p = priority_order q) :
    p = q := by
  cases p <;> cases q <;> simp_all [priority_order]

lemma rec_le_total (a b : Recommendation) : rec_le a b = true ∨ rec_le b a = true := by
  simp only [rec_le, Bool.or_eq_true, Bool.and_eq_true, decide_eq_true_eq]
  omega

lemma rec_le_trans (a b c : Recommendation) (hab : rec_le a b = true)
    (hbc : rec_le b c = true) : rec_le a c = true := by
  simp only [rec_le, Bool.or_eq_true, Bool.and_eq_true, decide_eq_true_eq] at *
  omega

lemma rec_le_spec_order {a b : Recommendation} (h : rec_le a b = true) :
    rec_spec_order a b := by
  simp only [rec_le, Bool.or_eq_true, Bool.and_eq_true, decide_eq_true_eq] at h
  rcases h with h | ⟨h1, h2⟩
  · exact Or.inl h
  · exact Or.inr ⟨priority_order_inj h1, by omega⟩

lemma mem_rec_insert (x a : Recommendation) (l : List Recommendation) :
    x ∈ rec_insert a l ↔ x = a ∨ x ∈ l := by
  induction l with
  | nil => simp [rec_insert]
  | cons b t ih =>
    simp only [rec_insert]
    split
    · simp [List.mem_cons]
    · simp only [List.mem_cons, ih]
      tauto

lemma rec_insert_pairwise (a : Recommendation) {l : List Recommendation}
    (h : l.Pairwise (fun x y => rec_le x y = true)) :
    (rec_insert a l).Pairwise (fun x y => rec_le x y = true) := by
  induction l with
  | nil => simp [rec_insert]
  | cons b t ih =>
    obtain ⟨hb, ht⟩ := List.pairwise_cons.mp h
    simp only [rec_insert]
    split
    · rename_i hab
      refine List.pairwise_cons.mpr ⟨?_, h⟩
      intro x hx
      rcases List.mem_cons.mp hx with rfl | hx
      · exact hab
      · exact rec_le_trans a b x hab (hb x hx)
    · rename_i hab
      have hba : rec_le b a = true :=
        (rec_le_total a b).resolve_left (by simpa using hab)
      refine List.pairwise_cons.mpr ⟨?_, ih ht⟩
      intro x hx
      rcases (mem_rec_insert x a t).mp hx with rfl | hx
      · exact hba
      · exact hb x hx

lemma rec_insert_perm (a : Recommendation) (l : List Recommendation) :
    List.Perm (rec_insert a l) (a :: l) := by
  induction l with
  | nil => rfl
  | cons b t ih =>
    simp only [rec_insert]
    split
    · exact List.Perm.refl _
    · exact (ih.cons b).trans (List.Perm.swap a b t)

/-- **C7.** `generate_all_recommendations` sorts its collected list by
priority tier (Critical, High, Medium, Low) and, within a tier, by
descending affected population: the sorted output is ordered by that
relation and is a permutation of the input, and the concrete scenario
with priorities [Medium, Critical, High, Critical] and populations
[500, 200, 800, 900] comes out as
[Critical(900), Critical(200), High(800), Medium(500)]. -/
theorem recommendations_sort_ordered :
    (∀ recs : List Recommendation,
        (sort_recommendations recs).Pairwise rec_spec_order ∧
          List.Perm (sort_recommendations recs) recs) ∧
      sort_recommendations
          [⟨.medium, 500, "r1"⟩, ⟨.critical, 200, "r2"⟩,
            ⟨.high, 800, "r3"⟩, ⟨.critical, 900, "r4"⟩] =
        [⟨.critical, 900, "r4"⟩, ⟨.critical, 200, "r2"⟩,
          ⟨.high, 800, "r3"⟩, ⟨.medium, 500, "r1"⟩] := by
  refine ⟨fun recs => ⟨?_, ?_⟩, by decide⟩
  · have hs : (sort_recommendations recs).Pairwise (fun x y => rec_le x y = true) := by
      induction recs with
      | nil => simp [sort_recommendations]
      | cons a t ih => exact rec_insert_pairwise a ih
    exact hs.imp fun h => rec_le_spec_order h
  · induction recs with
    | nil => rfl
    | cons a t ih => exact (rec_insert_perm a _).trans (ih.cons a)

/-! ## C9: unknown-tile fallback in coordinate construction -/

lemma lookup_tile_default : lookup_tile "h25v06" = some (tile_bounds_for 25 6) := by rfl

/-- **C9 (counterexample).** The claim also asserts that a fallback is
logged; `create_geographic_coordinates` contains no logging call, so for
the unknown tile id "h99v99" (not a key of the tile table) the emitted
log-record list is empty — no fallback message exists. -/
theorem unknown_tile_no_fallback_log :
    lookup_tile "h99v99" = none ∧
      create_geographic_coordinates_logs 10 10 "h99v99" = [] :=
  ⟨by rfl, rfl⟩

/-- **C9 (amended).** For every output shape and every tile identifier
absent from the known tile-bounds table, `create_geographic_coordinates`
totally evaluates (never raises) and produces exactly the same lat/lon
coordinate arrays as the default Mumbai tile "h25v06" — but it does not
log that a fallback occurred. -/
theorem unknown_tile_uses_default_bounds (T : ℚ × ℚ → ℚ × ℚ) (rows cols : ℕ)
    (tile_id : String) (h : lookup_tile tile_id = none) :
    create_geographic_coordinates T rows cols tile_id =
      create_geographic_coordinates T rows cols "h25v06" := by
  have hb : create_geographic_coordinates_bounds tile_id =
      create_geographic_coordinates_bounds "h25v06" := by
    unfold create_geographic_coordinates_bounds
    rw [h, lookup_tile_default]
    rfl
  unfold create_geographic_coordinates
  rw [hb]

theorem unknown_tile_uses_default_bounds_witness :
    lookup_tile "h13v05" = none ∧
      create_geographic_coordinates (fun p => p) 2 2 "h13v05" =
        create_geographic_coordinates (fun p => p) 2 2 "h25v06" :=
  ⟨by rfl, unknown_tile_uses_default_bounds (fun p => p) 2 2 "h13v05" (by rfl)⟩

/-! ## C1: zero-coverage region extraction substitutes synthetic data -/

/-- **C1.** A swath whose pixels all fall outside the buffered Mumbai
bounds (here a single pixel at lat 0, lon 0 with a positive value) has
zero usable pixels for the region, yet `_process_omi_hdf_file` still
returns a populated dataset (`some …`, not the `none` data-unavailable
signal), filled from `np.random.lognormal` — fabricated values silently
substituted for the region, contradicting the specified zero-coverage
reporting. -/
theorem omi_zero_coverage_substitutes_synthetic_grid :
    process_omi_region mumbai_bounds [⟨0, 0, some 1⟩] =
        some OmiGridData.synthetic_no_coverage ∧
      omi_grid_is_synthetic OmiGridData.synthetic_no_coverage = true ∧
      process_omi_region mumbai_bounds [⟨0, 0, some 1⟩] ≠ none := by
  have h : omi_mumbai_grid_source mumbai_bounds [⟨0, 0, some 1⟩] =
      OmiGridData.synthetic_no_coverage := by
    norm_num [omi_mumbai_grid_source, in_buffered_bounds, mumbai_bounds, List.filter]
  exact ⟨by rw [process_omi_region, h], rfl, by simp [process_omi_region]⟩

end CityForge
